import Mathlib

/-!
Verification of the client-side access gate, config store and storage
obfuscation of the Lead-Management-Dashboard repository.

The gate (src/src/lib/leadSchema.ts, auth module) manages three
sessionStorage entries: an opaque session token `adminAuth`, its issue
time `adminAuthTime`, and a JSON `loginAttempts` record
`{count, lockoutUntil}`.  We embed the storage as an explicit record
`GateState` and each operation as a pure function from the current time
and state to a result and a new state; every `Date.now()` occurring
inside one call is modelled as the single instant `now` at which the
call runs.  JavaScript falsiness of the stored values is modelled where
it matters: a stored `lockoutUntil` number is truthy iff it is non-null
and non-zero, hence the explicit `u ≠ 0` guards mirroring
`if (attempts.lockoutUntil ...)`.
-/

/-- Session lifetime, milliseconds (30 minutes), from the source. -/
def SESSION_DURATION : Nat := 30 * 60 * 1000

/-- Maximum failed login attempts before lockout, from the source. -/
def MAX_LOGIN_ATTEMPTS : Nat := 5

/-- Lockout duration, milliseconds (15 minutes), from the source. -/
def LOCKOUT_DURATION : Nat := 15 * 60 * 1000

/-- The `LoginAttempt` record stored as JSON under `loginAttempts`. -/
structure LoginAttempt where
  count : Nat
  lockoutUntil : Option Nat
  deriving DecidableEq

/-- The three sessionStorage entries the gate reads and writes:
`adminAuth`, `adminAuthTime` (a millisecond timestamp stored as a
string) and `loginAttempts`.  `none` models an absent entry. -/
structure GateState where
  adminAuth : Option String
  adminAuthTime : Option Nat
  loginAttempts : Option LoginAttempt
  deriving DecidableEq

/-- The empty sessionStorage (fresh browsing session). -/
def initialGateState : GateState := ⟨none, none, none⟩

/-- Result record of `authenticate`:
`{ success: boolean; error?: string; lockoutRemaining?: number }`. -/
structure AuthResult where
  success : Bool
  error : Option String
  lockoutRemaining : Option Nat
  deriving DecidableEq

/-- Modelled from the spec: `hashPassword` calls the browser primitive
`crypto.subtle.digest('SHA-256', ...)`, which is not part of this
repository's sources.  The spec describes it as a deterministic one-way
digest with no collisions in practice; we model it as an injective,
deterministic function that is never empty and never equal to its
input — exactly the properties the gate relies on (collision-freedom
being the spec's idealisation of SHA-256). -/
def hashPassword (password : String) : String :=
  "#" ++ password

/-- Embeds `verifyPassword` (auth module): returns false when either
the password or the stored hash is falsy (empty), otherwise compares
the digest of the password with the stored hash. -/
def verifyPassword (password storedHash : String) : Bool :=
  if password = "" ∨ storedHash = "" then false
  else hashPassword password == storedHash

/-- Modelled from the spec: `generateSessionToken` fills 32 random
bytes via `crypto.getRandomValues` (a browser primitive) and hex-encodes
them into a 64-character string.  Randomness is not modelled; the gate
depends only on the token being a present, non-empty opaque string. -/
def generateSessionToken : String :=
  String.mk (List.replicate 64 '0')

/-- Embeds `isSessionValid`: reads `adminAuth` and `adminAuthTime`; if
either is absent returns false; if `Date.now() - authTime` exceeds
`SESSION_DURATION` (strictly) removes both entries and returns false;
otherwise returns true.  Returns the possibly-updated storage. -/
def isSessionValid (now : Nat) (s : GateState) : Bool × GateState :=
  match s.adminAuth, s.adminAuthTime with
  | some _, some authTime =>
    if (now : Int) - (authTime : Int) > (SESSION_DURATION : Int) then
      (false, { s with adminAuth := none, adminAuthTime := none })
    else
      (true, s)
  | _, _ => (false, s)

/-- Embeds `clearSession`: removes `adminAuth` and `adminAuthTime`. -/
def clearSession (s : GateState) : GateState :=
  { s with adminAuth := none, adminAuthTime := none }

/-- Embeds `getLoginAttempts`: parses the stored record, defaulting to
`{ count: 0, lockoutUntil: null }` when absent (or unparsable). -/
def getLoginAttempts (s : GateState) : LoginAttempt :=
  s.loginAttempts.getD ⟨0, none⟩

/-- Embeds `recordFailedAttempt`: increments the count, sets
`lockoutUntil = Date.now() + LOCKOUT_DURATION` when the new count has
reached `MAX_LOGIN_ATTEMPTS`, stores and returns the record. -/
def recordFailedAttempt (now : Nat) (s : GateState) : LoginAttempt × GateState :=
  let a := getLoginAttempts s
  let a := { a with count := a.count + 1 }
  let a :=
    if a.count ≥ MAX_LOGIN_ATTEMPTS then
      { a with lockoutUntil := some (now + LOCKOUT_DURATION) }
    else a
  (a, { s with loginAttempts := some a })

/-- Embeds `clearLoginAttempts`: removes the `loginAttempts` entry. -/
def clearLoginAttempts (s : GateState) : GateState :=
  { s with loginAttempts := none }

/-- Embeds `isLockedOut`.  The source tests
`attempts.lockoutUntil && Date.now() < attempts.lockoutUntil` and then
`attempts.lockoutUntil && Date.now() >= attempts.lockoutUntil`; the
number `lockoutUntil` is truthy iff non-null and non-zero, hence the
`u ≠ 0` guards.  When the lockout has expired the call clears the
attempt record as a side effect. -/
def isLockedOut (now : Nat) (s : GateState) : Bool × GateState :=
  let lu := (getLoginAttempts s).lockoutUntil
  if lu.getD 0 ≠ 0 ∧ now < lu.getD 0 then (true, s)
  else if lu.getD 0 ≠ 0 ∧ lu.getD 0 ≤ now then (false, clearLoginAttempts s)
  else (false, s)

/-- `Math.ceil(r / 1000)` on an integer number of milliseconds: for a
non-negative `r` this is `(r + 999) / 1000`; for a negative `r`,
rounding up is rounding toward zero. -/
def ceilSeconds (r : Int) : Int :=
  if 0 ≤ r then ((r.toNat + 999) / 1000 : Nat)
  else -(((-r).toNat / 1000 : Nat))

/-- Embeds `getLockoutRemaining`: when a (truthy) `lockoutUntil` is
stored, returns `Math.max(0, Math.ceil((lockoutUntil - Date.now())/1000))`,
otherwise 0. -/
def getLockoutRemaining (now : Nat) (s : GateState) : Nat :=
  let lu := (getLoginAttempts s).lockoutUntil
  if lu.getD 0 ≠ 0 then
    (max 0 (ceilSeconds ((lu.getD 0 : Int) - (now : Int)))).toNat
  else 0

/-- The lockout-active failure message of `authenticate`
(`Math.ceil(remaining / 60)` minutes, `remaining` in seconds). -/
def lockedMessage (remaining : Nat) : String :=
  "Account locked. Try again in " ++ toString ((remaining + 59) / 60) ++ " minutes."

/-- The just-locked failure message of `authenticate`. -/
def tooManyMessage (remaining : Nat) : String :=
  "Too many failed attempts. Account locked for " ++ toString ((remaining + 59) / 60) ++ " minutes."

/-- The wrong-password failure message of `authenticate`, stating the
number of remaining attempts (`MAX_LOGIN_ATTEMPTS - attempts.count`,
a JavaScript number, hence `Int`), with plural handling. -/
def incorrectMessage (remainingAttempts : Int) : String :=
  "Incorrect password. " ++ toString remainingAttempts ++ " attempt" ++
    (if remainingAttempts ≠ 1 then "s" else "") ++ " remaining."

/-- The wrong-password branch of `authenticate`, factored out for the
proofs: record the failed attempt, then report either the freshly
created lockout (`if (attempts.lockoutUntil)`, a truthiness test) or
the number of attempts remaining. -/
def mismatchResult (now : Nat) (s : GateState) : AuthResult × GateState :=
  let ra := recordFailedAttempt now s
  let attempts := ra.1
  let s := ra.2
  let remainingAttempts : Int := (MAX_LOGIN_ATTEMPTS : Int) - (attempts.count : Int)
  if attempts.lockoutUntil.getD 0 ≠ 0 then
    let remaining := getLockoutRemaining now s
    ({ success := false, error := some (tooManyMessage remaining),
       lockoutRemaining := some remaining }, s)
  else
    ({ success := false, error := some (incorrectMessage remainingAttempts),
       lockoutRemaining := none }, s)

/-- Embeds `authenticate`: checks lockout first (the check itself may
clear an expired lockout record); on a verified password clears the
attempt record and mints a session; on mismatch records a failed
attempt and reports either the fresh lockout or the attempts
remaining (`mismatchResult`). -/
def authenticate (now : Nat) (password storedPasswordHash : String) (s : GateState) :
    AuthResult × GateState :=
  let locked := isLockedOut now s
  let s := locked.2
  if locked.1 then
    let remaining := getLockoutRemaining now s
    ({ success := false, error := some (lockedMessage remaining),
       lockoutRemaining := some remaining }, s)
  else if verifyPassword password storedPasswordHash then
    let s := clearLoginAttempts s
    let s := { s with adminAuth := some generateSessionToken,
                      adminAuthTime := some now }
    ({ success := true, error := none, lockoutRemaining := none }, s)
  else
    mismatchResult now s

/-- Well-formedness of the stored attempt record, as maintained by the
gate itself: the count never exceeds the maximum, `lockoutUntil` is
present exactly when the count has reached the maximum, and any stored
lockout timestamp is positive (the code only ever stores
`Date.now() + LOCKOUT_DURATION`). -/
def AttemptInvB (s : GateState) : Bool :=
  match s.loginAttempts with
  | none => true
  | some a =>
    decide (a.count ≤ MAX_LOGIN_ATTEMPTS) &&
    (a.lockoutUntil.isSome == decide (a.count = MAX_LOGIN_ATTEMPTS)) &&
    (match a.lockoutUntil with
     | some u => decide (0 < u)
     | none => true)

/-! ## Config store (src/src/lib/config.ts, src/src/lib/configSchema.ts)

`saveConfig` reads the current config (`getConfig`, a localStorage
read), merges the partial update over it, hashes a changed plaintext
password, validates the merged record against `configSchema`, and
persists the validated record (as an obfuscated JSON blob) to the
durable bucket.  We embed the data path: the current config is an
explicit argument (the localStorage read is the I/O shell), the
persisted record is returned, and `none` models the validation throw,
in which case nothing is persisted. -/

/-- The `AppConfig` record (configSchema.ts). -/
structure AppConfig where
  submitWebhookUrl : String
  readWebhookUrl : String
  adminPassword : String
  deriving DecidableEq

/-- A `Partial<AppConfig>` argument to `saveConfig`: absent fields keep
the current value under the `{ ...current, ...config }` spread. -/
structure ConfigPatch where
  submitWebhookUrl : Option String
  readWebhookUrl : Option String
  adminPassword : Option String
  deriving DecidableEq

/-- The fixed `DEFAULT_CONFIG` of config.ts. -/
def DEFAULT_CONFIG : AppConfig :=
  { submitWebhookUrl := "https://ae485a6b2636.ngrok-free.app/webhook/submit-lead"
    readWebhookUrl := "https://ae485a6b2636.ngrok-free.app/webhook/list-leads"
    adminPassword := "" }

/-- The `{ ...current, ...config }` merge of `saveConfig`. -/
def mergeConfig (current : AppConfig) (p : ConfigPatch) : AppConfig :=
  { submitWebhookUrl := p.submitWebhookUrl.getD current.submitWebhookUrl
    readWebhookUrl := p.readWebhookUrl.getD current.readWebhookUrl
    adminPassword := p.adminPassword.getD current.adminPassword }

/-- One character of the regex class `[a-f0-9]` with the `i` flag. -/
def isHexChar (c : Char) : Bool :=
  ('0' ≤ c && c ≤ '9') || ('a' ≤ c && c ≤ 'f') || ('A' ≤ c && c ≤ 'F')

/-- The `/^[a-f0-9]{64}$/i` test of `saveConfig`: exactly 64
case-insensitive hex characters. -/
def isAlreadyHashed (s : String) : Bool :=
  s.length == 64 && s.toList.all isHexChar

/-- The password-hashing step of `saveConfig`: when the merged
`adminPassword` is truthy (non-empty) and differs from the current one,
it is hashed unless it already matches the 64-hex-character pattern. -/
def hashIfChanged (current merged : AppConfig) : AppConfig :=
  if merged.adminPassword ≠ "" ∧ merged.adminPassword ≠ current.adminPassword then
    if isAlreadyHashed merged.adminPassword then merged
    else { merged with adminPassword := hashPassword merged.adminPassword }
  else merged

/-- Embeds `configSchema.parse`: `adminPassword` must be a string of
length 8 to 128; each webhook URL must satisfy `webhookUrlSchema` or be
the empty literal.  `webhookUrlSchema`'s URL checks run through the
browser's `URL` constructor (a platform primitive not in src/), so URL
validity is taken as the parameter `urlOk`.  `none` models the throw. -/
def configSchemaParse (urlOk : String → Bool) (c : AppConfig) : Option AppConfig :=
  if (urlOk c.submitWebhookUrl || c.submitWebhookUrl == "") &&
      (urlOk c.readWebhookUrl || c.readWebhookUrl == "") &&
      decide (8 ≤ c.adminPassword.length) && decide (c.adminPassword.length ≤ 128) then
    some c
  else none

/-- Embeds `saveConfig` (config.ts): merge the patch over the current
config, hash a changed plaintext password, validate, and persist the
validated record.  The returned record is what is serialised,
obfuscated and written under `leadProcessorConfigEnc`; `none` means the
validation threw and nothing was persisted. -/
def saveConfig (urlOk : String → Bool) (current : AppConfig) (patch : ConfigPatch) :
    Option AppConfig :=
  let merged := mergeConfig current patch
  let merged := hashIfChanged current merged
  configSchemaParse urlOk merged

/-! ## Storage obfuscation (src/unnamed/part_003, the encryption module)

JavaScript strings are modelled as lists of UTF-16 code units
(`charCodeAt` / `String.fromCharCode` identify a string with such a
list).  `btoa`/`atob` are browser primitives, not part of this
repository's sources; they are modelled from their specification:
RFC 4648 base64 over Latin-1 code units, with `btoa` throwing
(modelled as `none`) whenever some code unit exceeds 255, and `atob`
throwing on input that is not valid base64. -/

/-- The fixed obfuscation key of the encryption module. -/
def ENCRYPTION_KEY : String := "lead-hub-2024-key"

/-- The key's UTF-16 code units (all ASCII, hence below 128). -/
def keyCodes : List Nat := ENCRYPTION_KEY.toList.map Char.toNat

/-- `ENCRYPTION_KEY.charCodeAt(i % ENCRYPTION_KEY.length)`. -/
def keyCodeAt (i : Nat) : Nat := keyCodes.getD (i % keyCodes.length) 0

/-- The XOR loop shared by `simpleObfuscate` and `simpleDeobfuscate`:
each code unit is XORed with the key code unit at the running index. -/
def xorFrom (i : Nat) : List Nat → List Nat
  | [] => []
  | c :: rest => (c ^^^ keyCodeAt i) :: xorFrom (i + 1) rest

/-- The base64 alphabet. -/
def b64chars : List Char :=
  "ABCDEFGHIJKLMNOPQRSTUVWXYZabcdefghijklmnopqrstuvwxyz0123456789+/".toList

/-- The base64 character of a sextet. -/
def sextetChar (n : Nat) : Char := b64chars.getD n 'A'

/-- The sextet of a base64 character, `none` for a non-alphabet
character. -/
def charSextet (c : Char) : Option Nat :=
  let i := b64chars.indexOf c
  if i < 64 then some i else none

/-- Modelled from the spec: RFC 4648 base64 encoding of a byte list
(the happy path of the browser's `btoa`), with `=` padding. -/
def b64encode : List Nat → List Char
  | [] => []
  | [b0] => [sextetChar (b0 / 4), sextetChar (b0 % 4 * 16), '=', '=']
  | [b0, b1] =>
      [sextetChar (b0 / 4), sextetChar (b0 % 4 * 16 + b1 / 16),
       sextetChar (b1 % 16 * 4), '=']
  | b0 :: b1 :: b2 :: rest =>
      sextetChar (b0 / 4) :: sextetChar (b0 % 4 * 16 + b1 / 16) ::
      sextetChar (b1 % 16 * 4 + b2 / 64) :: sextetChar (b2 % 64) :: b64encode rest

/-- Modelled from the spec: RFC 4648 base64 decoding (the browser's
`atob`), `none` on invalid input. -/
def b64decode : List Char → Option (List Nat)
  | [] => some []
  | c0 :: c1 :: c2 :: c3 :: rest =>
    match charSextet c0, charSextet c1 with
    | some s0, some s1 =>
      if c2 = '=' then
        if c3 = '=' ∧ rest = [] then some [s0 * 4 + s1 / 16] else none
      else
        match charSextet c2 with
        | some s2 =>
          if c3 = '=' then
            if rest = [] then some [s0 * 4 + s1 / 16, s1 % 16 * 16 + s2 / 4]
            else none
          else
            match charSextet c3, b64decode rest with
            | some s3, some bs =>
                some ((s0 * 4 + s1 / 16) :: (s1 % 16 * 16 + s2 / 4) ::
                      (s2 % 4 * 64 + s3) :: bs)
            | _, _ => none
        | none => none
    | _, _ => none
  | _ => none

/-- Modelled from the spec: the browser's `btoa`, which throws
(`none`) when some code unit of its argument exceeds 255. -/
def btoa (l : List Nat) : Option (List Char) :=
  if l.all (fun b => b < 256) then some (b64encode l) else none

/-- Modelled from the spec: the browser's `atob`. -/
def atob (l : List Char) : Option (List Nat) := b64decode l

/-- Embeds `simpleObfuscate`: XOR every code unit with the repeating
key, then base64-encode.  `none` models the uncaught `btoa` throw. -/
def simpleObfuscate (text : List Nat) : Option (List Char) :=
  btoa (xorFrom 0 text)

/-- Embeds `simpleDeobfuscate`: base64-decode and XOR with the
repeating key; the `catch` returns the empty string on an `atob`
throw. -/
def simpleDeobfuscate (obfuscated : List Char) : List Nat :=
  match atob obfuscated with
  | some decoded => xorFrom 0 decoded
  | none => []

/-- Embeds `encryptForStorage`: empty input is returned as the empty
string (falsiness check), otherwise obfuscated; `none` models the
propagated `btoa` throw. -/
def encryptForStorage (data : List Nat) : Option (List Char) :=
  if data = [] then some [] else simpleObfuscate data

/-- Embeds `decryptFromStorage`: empty input maps to the empty string,
otherwise deobfuscate. -/
def decryptFromStorage (encrypted : List Char) : List Nat :=
  if encrypted = [] then [] else simpleDeobfuscate encrypted

/-- Five consecutive failed `authenticate` calls at time `t` against
the digest of `good`, using the wrong password `pw`, starting from the
empty sessionStorage (the scenario of the spec's lockout property). -/
def fiveFails (t : Nat) (pw good : String) : GateState :=
  (authenticate t pw (hashPassword good)
    ((authenticate t pw (hashPassword good)
      ((authenticate t pw (hashPassword good)
        ((authenticate t pw (hashPassword good)
          ((authenticate t pw (hashPassword good) initialGateState).2)).2)).2)).2)).2

/-- A plaintext password of sixty-four `a` characters: it matches the
`/^[a-f0-9]{64}$/i` pattern `saveConfig` uses to detect already-hashed
values. -/
def sixtyFourHexA : String := String.mk (List.replicate 64 'a')

/-! ## Round-trip lemmas for the obfuscation -/

theorem charSextet_sextetChar_fin :
    ∀ n : Fin 64, charSextet (sextetChar (n : Nat)) = some (n : Nat) ∧
      sextetChar (n : Nat) ≠ '=' := by decide

theorem charSextet_sextetChar (n : Nat) (h : n < 64) :
    charSextet (sextetChar n) = some n :=
  (charSextet_sextetChar_fin ⟨n, h⟩).1

theorem sextetChar_ne_pad (n : Nat) (h : n < 64) : sextetChar n ≠ '=' :=
  (charSextet_sextetChar_fin ⟨n, h⟩).2

theorem b64_roundtrip (l : List Nat) (h : ∀ b ∈ l, b < 256) :
    b64decode (b64encode l) = some l := by
  induction l using b64encode.induct with
  | case1 => rfl
  | case2 b0 =>
    have hb0 : b0 < 256 := h b0 (by simp)
    have e1 := charSextet_sextetChar _ (show b0 / 4 < 64 by omega)
    have e2 := charSextet_sextetChar _ (show b0 % 4 * 16 < 64 by omega)
    simp [b64encode, b64decode, e1, e2]
    omega
  | case3 b0 b1 =>
    have hb0 : b0 < 256 := h b0 (by simp)
    have hb1 : b1 < 256 := h b1 (by simp)
    have e1 := charSextet_sextetChar _ (show b0 / 4 < 64 by omega)
    have e2 := charSextet_sextetChar _ (show b0 % 4 * 16 + b1 / 16 < 64 by omega)
    have e3 := charSextet_sextetChar _ (show b1 % 16 * 4 < 64 by omega)
    have n3 := sextetChar_ne_pad _ (show b1 % 16 * 4 < 64 by omega)
    simp [b64encode, b64decode, e1, e2, e3, n3]
    omega
  | case4 b0 b1 b2 rest ih =>
    have hb0 : b0 < 256 := h b0 (by simp)
    have hb1 : b1 < 256 := h b1 (by simp)
    have hb2 : b2 < 256 := h b2 (by simp)
    have hrest : ∀ b ∈ rest, b < 256 := fun b hb => h b (by simp [hb])
    have e1 := charSextet_sextetChar _ (show b0 / 4 < 64 by omega)
    have e2 := charSextet_sextetChar _ (show b0 % 4 * 16 + b1 / 16 < 64 by omega)
    have e3 := charSextet_sextetChar _ (show b1 % 16 * 4 + b2 / 64 < 64 by omega)
    have n3 := sextetChar_ne_pad _ (show b1 % 16 * 4 + b2 / 64 < 64 by omega)
    have e4 := charSextet_sextetChar _ (show b2 % 64 < 64 by omega)
    have n4 := sextetChar_ne_pad _ (show b2 % 64 < 64 by omega)
    simp [b64encode, b64decode, e1, e2, e3, n3, e4, n4, ih hrest]
    omega

theorem keyCodes_length : keyCodes.length = 17 := by decide

theorem keyCodeAt_lt (i : Nat) : keyCodeAt i < 128 := by
  have h17 : ∀ j : Fin 17, keyCodes.getD (j : Nat) 0 < 128 := by decide
  have hm : i % keyCodes.length < 17 := by
    rw [keyCodes_length]; exact Nat.mod_lt _ (by omega)
  exact h17 ⟨i % keyCodes.length, hm⟩

theorem xorFrom_xorFrom (l : List Nat) : ∀ i, xorFrom i (xorFrom i l) = l := by
  induction l with
  | nil => intro i; rfl
  | cons c rest ih => intro i; simp [xorFrom, Nat.xor_cancel_right, ih]

theorem xorFrom_lt (l : List Nat) :
    ∀ i, (∀ b ∈ l, b < 256) → ∀ b ∈ xorFrom i l, b < 256 := by
  induction l with
  | nil => intro i _ b hb; simp [xorFrom] at hb
  | cons c rest ih =>
    intro i h b hb
    rw [xorFrom] at hb
    rcases List.mem_cons.mp hb with hb | hb
    · subst hb
      have h1 : c < 2 ^ 8 := h c (by simp)
      have h2 : keyCodeAt i < 2 ^ 8 := lt_trans (keyCodeAt_lt i) (by norm_num)
      exact Nat.xor_lt_two_pow h1 h2
    · exact ih (i + 1) (fun x hx => h x (by simp [hx])) b hb

theorem xorFrom_ne_nil (l : List Nat) (i : Nat) (h : l ≠ []) : xorFrom i l ≠ [] := by
  cases l with
  | nil => exact absurd rfl h
  | cons c rest => simp [xorFrom]

theorem b64encode_ne_nil (l : List Nat) (h : l ≠ []) : b64encode l ≠ [] := by
  match l with
  | [] => exact absurd rfl h
  | [b0] => simp [b64encode]
  | [b0, b1] => simp [b64encode]
  | b0 :: b1 :: b2 :: rest => simp [b64encode]

theorem storage_roundtrip_aux (data : List Nat) (h : ∀ b ∈ data, b < 256)
    (hd : data ≠ []) :
    encryptForStorage data = some (b64encode (xorFrom 0 data)) ∧
      decryptFromStorage (b64encode (xorFrom 0 data)) = data := by
  have hx : ∀ b ∈ xorFrom 0 data, b < 256 := xorFrom_lt data 0 h
  constructor
  · simp only [encryptForStorage, if_neg hd, simpleObfuscate, btoa]
    rw [if_pos]
    rw [List.all_eq_true]
    intro b hb
    simpa using hx b hb
  · have hne : b64encode (xorFrom 0 data) ≠ [] :=
      b64encode_ne_nil _ (xorFrom_ne_nil data 0 hd)
    simp only [decryptFromStorage, if_neg hne, simpleDeobfuscate, atob]
    rw [b64_roundtrip _ hx]
    exact xorFrom_xorFrom data 0

/-! ## Helper lemmas about the gate -/

theorem hashPassword_ne_empty (p : String) : hashPassword p ≠ "" := by
  intro h
  have hl := congrArg String.length h
  simp [hashPassword] at hl
  exact absurd hl.1 (by decide)

theorem hashPassword_inj {a b : String} (h : hashPassword a = hashPassword b) :
    a = b := by
  have hd := congrArg String.data h
  simp [hashPassword] at hd
  exact String.ext hd

theorem verifyPassword_self (p : String) (h : p ≠ "") :
    verifyPassword p (hashPassword p) = true := by
  simp [verifyPassword, h, hashPassword_ne_empty p]

theorem verifyPassword_mismatch (w h : String) (hne : hashPassword w ≠ h) :
    verifyPassword w h = false := by
  unfold verifyPassword
  split
  · rfl
  · simpa using hne

theorem isLockedOut_locked {now : Nat} {s : GateState} {u : Nat}
    (hu : (getLoginAttempts s).lockoutUntil = some u) (h : now < u) :
    isLockedOut now s = (true, s) := by
  unfold isLockedOut
  rw [hu]
  simp only [Option.getD_some]
  rw [if_pos ⟨by omega, h⟩]

theorem isLockedOut_expired {now : Nat} {s : GateState} {u : Nat}
    (hu : (getLoginAttempts s).lockoutUntil = some u) (h0 : 0 < u) (h : u ≤ now) :
    isLockedOut now s = (false, clearLoginAttempts s) := by
  unfold isLockedOut
  rw [hu]
  simp only [Option.getD_some]
  rw [if_neg (by omega : ¬(u ≠ 0 ∧ now < u))]
  rw [if_pos ⟨by omega, h⟩]

theorem isLockedOut_no_lockout {now : Nat} {s : GateState}
    (hu : (getLoginAttempts s).lockoutUntil = none) :
    isLockedOut now s = (false, s) := by
  unfold isLockedOut
  rw [hu]
  simp

theorem getLockoutRemaining_future {now : Nat} {s : GateState} {u : Nat}
    (hu : (getLoginAttempts s).lockoutUntil = some u) (h : now < u) :
    getLockoutRemaining now s = (ceilSeconds ((u : Int) - (now : Int))).toNat := by
  unfold getLockoutRemaining
  rw [hu]
  simp only [Option.getD_some]
  rw [if_pos (by omega : u ≠ 0)]
  have hr : (0 : Int) ≤ (u : Int) - (now : Int) := by omega
  have hc : 0 ≤ ceilSeconds ((u : Int) - (now : Int)) := by
    unfold ceilSeconds
    rw [if_pos hr]
    positivity
  rw [max_eq_right hc]

/-- When not locked out and the invariant holds, the lockout check
leaves the session fields alone and its result state carries no
`lockoutUntil` (either there was none, or the expired record was
cleared). -/
theorem notLocked_state (now : Nat) (s : GateState)
    (hinv : AttemptInvB s = true) (h : (isLockedOut now s).1 = false) :
    (getLoginAttempts (isLockedOut now s).2).lockoutUntil = none ∧
      ((isLockedOut now s).2).adminAuth = s.adminAuth ∧
      ((isLockedOut now s).2).adminAuthTime = s.adminAuthTime := by
  rcases s with ⟨auth, time, a⟩
  rcases a with _ | ⟨c, lu⟩
  · simp [isLockedOut, getLoginAttempts]
  · rcases lu with _ | u
    · simp [isLockedOut, getLoginAttempts]
    · have hu : 0 < u := by
        simp [AttemptInvB] at hinv
        omega
      have he : (getLoginAttempts ⟨auth, time, some ⟨c, some u⟩⟩).lockoutUntil = some u := rfl
      by_cases hlt : now < u
      · rw [isLockedOut_locked he hlt] at h
        simp at h
      · rw [isLockedOut_expired he hu (by omega)]
        simp [clearLoginAttempts, getLoginAttempts]

theorem authenticate_locked {now : Nat} {pw h : String} {s : GateState} {u : Nat}
    (hu : (getLoginAttempts s).lockoutUntil = some u) (hlt : now < u) :
    authenticate now pw h s =
      ({ success := false,
         error := some (lockedMessage ((ceilSeconds ((u : Int) - (now : Int))).toNat)),
         lockoutRemaining := some ((ceilSeconds ((u : Int) - (now : Int))).toNat) }, s) := by
  simp only [authenticate, isLockedOut_locked hu hlt, getLockoutRemaining_future hu hlt]
  simp

theorem authenticate_not_locked (now : Nat) (pw h : String) (s : GateState)
    (hl : (isLockedOut now s).1 = false) :
    authenticate now pw h s =
      if verifyPassword pw h then
        ({ success := true, error := none, lockoutRemaining := none },
         { adminAuth := some generateSessionToken, adminAuthTime := some now,
           loginAttempts := none })
      else mismatchResult now ((isLockedOut now s).2) := by
  rcases hls : isLockedOut now s with ⟨b, s₁⟩
  have hb : b = false := by rw [hls] at hl; exact hl
  subst hb
  simp only [authenticate, hls]
  simp only [Bool.false_eq_true, if_false]
  split
  · simp [clearLoginAttempts]
  · rfl

theorem mismatchResult_no_lockout (now : Nat) (s : GateState)
    (hlu : (getLoginAttempts s).lockoutUntil = none) :
    mismatchResult now s =
      if (getLoginAttempts s).count + 1 ≥ MAX_LOGIN_ATTEMPTS then
        ({ success := false, error := some (tooManyMessage 900),
           lockoutRemaining := some 900 },
         ⟨s.adminAuth, s.adminAuthTime,
          some ⟨(getLoginAttempts s).count + 1, some (now + LOCKOUT_DURATION)⟩⟩)
      else
        ({ success := false,
           error := some (incorrectMessage
             ((MAX_LOGIN_ATTEMPTS : Int) - ((getLoginAttempts s).count + 1 : Nat))),
           lockoutRemaining := none },
         ⟨s.adminAuth, s.adminAuthTime,
          some ⟨(getLoginAttempts s).count + 1, none⟩⟩) := by
  have h900 : getLockoutRemaining now
      (⟨s.adminAuth, s.adminAuthTime,
        some ⟨(getLoginAttempts s).count + 1, some (now + LOCKOUT_DURATION)⟩⟩ : GateState)
      = 900 := by
    have he : (getLoginAttempts
        (⟨s.adminAuth, s.adminAuthTime,
          some ⟨(getLoginAttempts s).count + 1,
            some (now + LOCKOUT_DURATION)⟩⟩ : GateState)).lockoutUntil
        = some (now + LOCKOUT_DURATION) := rfl
    rw [getLockoutRemaining_future he (by unfold LOCKOUT_DURATION; omega)]
    have hn : ((now + LOCKOUT_DURATION : Nat) : Int) - (now : Int) = 900000 := by
      unfold LOCKOUT_DURATION; push_cast; ring
    rw [hn]
    decide
  have hnz : now + LOCKOUT_DURATION ≠ 0 := by unfold LOCKOUT_DURATION; omega
  by_cases hc : (getLoginAttempts s).count + 1 ≥ MAX_LOGIN_ATTEMPTS
  · simp [mismatchResult, recordFailedAttempt, hlu, hc, hnz, h900]
  · simp [mismatchResult, recordFailedAttempt, hlu, hc]

theorem hashPassword_ne_self (p : String) : hashPassword p ≠ p := by
  intro h
  have hl := congrArg String.length h
  simp [hashPassword] at hl
  exact absurd hl (by decide)

theorem isLockedOut_true_iff (now : Nat) (s : GateState) :
    (isLockedOut now s).1 = true ↔
      ∃ u, (getLoginAttempts s).lockoutUntil = some u ∧ now < u := by
  constructor
  · intro h
    rcases hlu : (getLoginAttempts s).lockoutUntil with _ | u
    · rw [isLockedOut_no_lockout hlu] at h
      simp at h
    · refine ⟨u, rfl, ?_⟩
      unfold isLockedOut at h
      rw [hlu] at h
      simp only [Option.getD_some] at h
      by_cases hc : u ≠ 0 ∧ now < u
      · exact hc.2
      · rw [if_neg hc] at h
        split at h <;> simp at h
  · rintro ⟨u, hu, hlt⟩
    rw [isLockedOut_locked hu hlt]

theorem isLockedOut_session (now : Nat) (s : GateState) :
    ((isLockedOut now s).2).adminAuth = s.adminAuth ∧
      ((isLockedOut now s).2).adminAuthTime = s.adminAuthTime := by
  unfold isLockedOut clearLoginAttempts
  dsimp only
  split_ifs <;> simp

theorem mismatchResult_session (now : Nat) (s : GateState) :
    ((mismatchResult now s).2).adminAuth = s.adminAuth ∧
      ((mismatchResult now s).2).adminAuthTime = s.adminAuthTime := by
  unfold mismatchResult recordFailedAttempt
  dsimp only
  split_ifs <;> simp

theorem mismatchResult_fails (now : Nat) (s : GateState) :
    ((mismatchResult now s).1).success = false := by
  unfold mismatchResult recordFailedAttempt
  dsimp only
  split_ifs <;> rfl

theorem isSessionValid_fst_congr (now : Nat) {s s' : GateState}
    (ha : s'.adminAuth = s.adminAuth) (ht : s'.adminAuthTime = s.adminAuthTime) :
    (isSessionValid now s').1 = (isSessionValid now s).1 := by
  unfold isSessionValid
  rw [ha, ht]
  rcases s.adminAuth with _ | tok <;> rcases s.adminAuthTime with _ | t0 <;> simp
  split <;> simp

theorem ceilSeconds_nonpos {r : Int} (h : r ≤ 0) : ceilSeconds r ≤ 0 := by
  unfold ceilSeconds
  split <;> omega

theorem getLockoutRemaining_passed {now : Nat} {s : GateState} {u : Nat}
    (hu : (getLoginAttempts s).lockoutUntil = some u) (h : u ≤ now) :
    getLockoutRemaining now s = 0 := by
  unfold getLockoutRemaining
  rw [hu]
  simp only [Option.getD_some]
  by_cases h0 : u = 0
  · rw [if_neg (by omega)]
  · rw [if_pos h0]
    have hc : ceilSeconds ((u : Int) - (now : Int)) ≤ 0 :=
      ceilSeconds_nonpos (by omega)
    omega

theorem getLockoutRemaining_none {now : Nat} {s : GateState}
    (hu : (getLoginAttempts s).lockoutUntil = none) :
    getLockoutRemaining now s = 0 := by
  unfold getLockoutRemaining
  rw [hu]
  simp

theorem attemptInv_clear (s : GateState) :
    AttemptInvB (clearLoginAttempts s) = true := by
  simp [AttemptInvB, clearLoginAttempts]

theorem attemptInv_isLockedOut (now : Nat) (s : GateState)
    (hinv : AttemptInvB s = true) : AttemptInvB (isLockedOut now s).2 = true := by
  rcases s with ⟨auth, time, la⟩
  rcases la with _ | ⟨c, lu⟩
  · simpa [isLockedOut, getLoginAttempts] using hinv
  · rcases lu with _ | u
    · simpa [isLockedOut, getLoginAttempts] using hinv
    · have he : (getLoginAttempts ⟨auth, time, some ⟨c, some u⟩⟩).lockoutUntil = some u := rfl
      have hu : 0 < u := by
        simp [AttemptInvB] at hinv
        omega
      by_cases hlt : now < u
      · rw [isLockedOut_locked he hlt]
        exact hinv
      · rw [isLockedOut_expired he hu (by omega)]
        exact attemptInv_clear _

theorem count_le_four {s : GateState} (hinv : AttemptInvB s = true)
    (hlu : (getLoginAttempts s).lockoutUntil = none) :
    (getLoginAttempts s).count ≤ 4 := by
  rcases s with ⟨auth, time, la⟩
  rcases la with _ | ⟨c, lu⟩
  · simp [getLoginAttempts]
  · simp [getLoginAttempts] at hlu ⊢
    subst hlu
    simp [AttemptInvB, MAX_LOGIN_ATTEMPTS] at hinv
    omega

theorem attemptInv_mismatch (now : Nat) (s : GateState)
    (hlu : (getLoginAttempts s).lockoutUntil = none)
    (hc : (getLoginAttempts s).count ≤ 4) :
    AttemptInvB (mismatchResult now s).2 = true := by
  rw [mismatchResult_no_lockout now s hlu]
  by_cases h5 : (getLoginAttempts s).count + 1 ≥ MAX_LOGIN_ATTEMPTS
  · rw [if_pos h5]
    simp [AttemptInvB, MAX_LOGIN_ATTEMPTS, LOCKOUT_DURATION] at h5 ⊢
    omega
  · rw [if_neg h5]
    simp [AttemptInvB, MAX_LOGIN_ATTEMPTS] at h5 ⊢
    omega

theorem failed_step_small (t : Nat) (pw h : String) (hv : verifyPassword pw h = false)
    (auth : Option String) (time : Option Nat) (c : Nat)
    (hc : c + 1 < MAX_LOGIN_ATTEMPTS) :
    (authenticate t pw h ⟨auth, time, some ⟨c, none⟩⟩).2 =
      ⟨auth, time, some ⟨c + 1, none⟩⟩ := by
  have hi : isLockedOut t ⟨auth, time, some ⟨c, none⟩⟩ =
      (false, ⟨auth, time, some ⟨c, none⟩⟩) := isLockedOut_no_lockout rfl
  rw [authenticate_not_locked t pw h _ (by rw [hi])]
  rw [if_neg (by simp [hv])]
  rw [hi]
  show (mismatchResult t ⟨auth, time, some ⟨c, none⟩⟩).2 = _
  rw [mismatchResult_no_lockout t ⟨auth, time, some ⟨c, none⟩⟩ rfl]
  rw [if_neg (by simp only [getLoginAttempts, Option.getD_some]; omega)]
  rfl

theorem failed_step_lock (t : Nat) (pw h : String) (hv : verifyPassword pw h = false)
    (auth : Option String) (time : Option Nat) (c : Nat)
    (hc : c + 1 ≥ MAX_LOGIN_ATTEMPTS) :
    (authenticate t pw h ⟨auth, time, some ⟨c, none⟩⟩).2 =
      ⟨auth, time, some ⟨c + 1, some (t + LOCKOUT_DURATION)⟩⟩ := by
  have hi : isLockedOut t ⟨auth, time, some ⟨c, none⟩⟩ =
      (false, ⟨auth, time, some ⟨c, none⟩⟩) := isLockedOut_no_lockout rfl
  rw [authenticate_not_locked t pw h _ (by rw [hi])]
  rw [if_neg (by simp [hv])]
  rw [hi]
  show (mismatchResult t ⟨auth, time, some ⟨c, none⟩⟩).2 = _
  rw [mismatchResult_no_lockout t ⟨auth, time, some ⟨c, none⟩⟩ rfl]
  rw [if_pos (by simp only [getLoginAttempts, Option.getD_some]; omega)]
  rfl

theorem failed_step_none (t : Nat) (pw h : String) (hv : verifyPassword pw h = false)
    (auth : Option String) (time : Option Nat) :
    (authenticate t pw h ⟨auth, time, none⟩).2 = ⟨auth, time, some ⟨1, none⟩⟩ := by
  have hi : isLockedOut t ⟨auth, time, none⟩ = (false, ⟨auth, time, none⟩) :=
    isLockedOut_no_lockout rfl
  rw [authenticate_not_locked t pw h _ (by rw [hi])]
  rw [if_neg (by simp [hv])]
  rw [hi]
  show (mismatchResult t ⟨auth, time, none⟩).2 = _
  rw [mismatchResult_no_lockout t ⟨auth, time, none⟩ rfl]
  rw [if_neg (by simp [getLoginAttempts, MAX_LOGIN_ATTEMPTS])]
  rfl

/-! ## The claims -/

/-- C1 counterexample: the claim quantifies over all passwords
including the empty string, but `verifyPassword` rejects a falsy
(empty) password before comparing digests, so
`authenticate("", digest(""))` fails and no session is stored. -/
theorem claimC1_counterexample :
    (authenticate 0 "" (hashPassword "") initialGateState).1.success = false ∧
      (isSessionValid 0 (authenticate 0 "" (hashPassword "") initialGateState).2).1
        = false := by
  decide

/-- C1 (amended — the empty password is excluded, since `verifyPassword`
returns false for a falsy password before any digest comparison): for
every non-empty password P and any state that is not locked out,
`authenticate(P, digest(P))` succeeds, stores a session token and issue
timestamp, and `isSessionValid()` is true immediately afterwards. -/
theorem claimC1_correct_password_succeeds (now : Nat) (P : String) (s : GateState)
    (hP : P ≠ "") (hnl : (isLockedOut now s).1 = false) :
    (authenticate now P (hashPassword P) s).1.success = true ∧
    ((authenticate now P (hashPassword P) s).2).adminAuth = some generateSessionToken ∧
    ((authenticate now P (hashPassword P) s).2).adminAuthTime = some now ∧
    (isSessionValid now (authenticate now P (hashPassword P) s).2).1 = true := by
  rw [authenticate_not_locked now P (hashPassword P) s hnl]
  rw [if_pos (verifyPassword_self P hP)]
  refine ⟨rfl, rfl, rfl, ?_⟩
  simp [isSessionValid, SESSION_DURATION]

/-- C1 witness. -/
theorem claimC1_witness :
    ("a" ≠ "" ∧ (isLockedOut 7 initialGateState).1 = false) ∧
      ((authenticate 7 "a" (hashPassword "a") initialGateState).1.success = true ∧
      ((authenticate 7 "a" (hashPassword "a") initialGateState).2).adminAuth
          = some generateSessionToken ∧
      ((authenticate 7 "a" (hashPassword "a") initialGateState).2).adminAuthTime
          = some 7 ∧
      (isSessionValid 7 (authenticate 7 "a" (hashPassword "a") initialGateState).2).1
          = true) :=
  ⟨⟨by decide, by decide⟩,
    claimC1_correct_password_succeeds 7 "a" initialGateState (by decide) (by decide)⟩

/-- C3 counterexample: at exactly 30 minutes after issue
(`now - issuedAt = SESSION_DURATION`) the code's strict `>` keeps the
session valid, while the claim's `≥` boundary declares it invalid. -/
theorem claimC3_counterexample :
    (isSessionValid 1800000 ⟨some "t", some 0, none⟩).1 = true := by decide

/-- C3 (amended — the boundary is strict: the session expires only when
`now - issuedAt` strictly exceeds 30 minutes, so at exactly 30 minutes
it is still valid): `isSessionValid` returns false when either session
entry is absent; with a stored session it deletes both entries and
returns false when `now - issuedAt > 30` minutes and returns true
otherwise; in particular a session issued at `t0` is valid at
`t0 + 29m59s` and at exactly `t0 + 30m`, and invalid at `t0 + 30m01s`. -/
theorem claimC3_session_expiry (now t0 : Nat) (tok : String) (s : GateState)
    (ha : s.adminAuth = some tok) (ht : s.adminAuthTime = some t0) :
    (∀ s' : GateState, s'.adminAuth = none ∨ s'.adminAuthTime = none →
        isSessionValid now s' = (false, s')) ∧
    ((now : Int) - (t0 : Int) > (SESSION_DURATION : Int) →
        isSessionValid now s = (false, ⟨none, none, s.loginAttempts⟩)) ∧
    ((now : Int) - (t0 : Int) ≤ (SESSION_DURATION : Int) →
        isSessionValid now s = (true, s)) ∧
    (now = t0 + 1799000 → (isSessionValid now s).1 = true) ∧
    (now = t0 + 1800000 → (isSessionValid now s).1 = true) ∧
    (now = t0 + 1801000 → (isSessionValid now s).1 = false) := by
  rcases s with ⟨a, t, la⟩
  simp only at ha ht
  subst ha
  subst ht
  have hred : ∀ m : Nat, isSessionValid m ⟨some tok, some t0, la⟩ =
      if (m : Int) - (t0 : Int) > (SESSION_DURATION : Int) then
        (false, (⟨none, none, la⟩ : GateState))
      else (true, ⟨some tok, some t0, la⟩) := fun m => rfl
  refine ⟨?_, ?_, ?_, ?_, ?_, ?_⟩
  · intro s' h
    rcases s' with ⟨a', t', la'⟩
    rcases a' with _ | tok'
    · rfl
    · rcases t' with _ | tt
      · rfl
      · simp at h
  · intro h
    rw [hred, if_pos h]
  · intro h
    rw [hred, if_neg (by omega)]
  · intro h
    subst h
    rw [hred, if_neg (by unfold SESSION_DURATION; push_cast; omega)]
  · intro h
    subst h
    rw [hred, if_neg (by unfold SESSION_DURATION; push_cast; omega)]
  · intro h
    subst h
    rw [hred, if_pos (by unfold SESSION_DURATION; push_cast; omega)]

/-- C3 witness. -/
theorem claimC3_witness :
    ((⟨some "t", some 10, none⟩ : GateState).adminAuth = some "t" ∧
      (⟨some "t", some 10, none⟩ : GateState).adminAuthTime = some 10) ∧
      isSessionValid 1800011 ⟨some "t", some 10, none⟩ =
        (false, ⟨none, none, none⟩) :=
  ⟨⟨rfl, rfl⟩,
    (claimC3_session_expiry 1800011 10 "t" ⟨some "t", some 10, none⟩ rfl rfl).2.1
      (by decide)⟩

/-- C7: `clearSession()` followed by `isSessionValid()` is always
false, for every prior state; and a call of `isSessionValid` that
returned false (in particular one that deleted an expired session)
leaves a state on which any later call still returns false and changes
nothing. -/
theorem claimC7_clearSession_expiry (now now2 : Nat) (s : GateState) :
    (isSessionValid now (clearSession s)).1 = false ∧
      ((isSessionValid now s).1 = false →
        isSessionValid now2 ((isSessionValid now s).2) =
          (false, (isSessionValid now s).2)) := by
  constructor
  · rfl
  · intro h
    rcases s with ⟨a, t, la⟩
    rcases a with _ | tok
    · rfl
    · rcases t with _ | t0
      · rfl
      · have hred : isSessionValid now ⟨some tok, some t0, la⟩ =
            if (now : Int) - (t0 : Int) > (SESSION_DURATION : Int) then
              (false, (⟨none, none, la⟩ : GateState))
            else (true, ⟨some tok, some t0, la⟩) := rfl
        rw [hred] at h ⊢
        by_cases hc : (now : Int) - (t0 : Int) > (SESSION_DURATION : Int)
        · rw [if_pos hc]
          rfl
        · rw [if_neg hc] at h
          simp at h

/-- C7 witness. -/
theorem claimC7_witness :
    (isSessionValid 3 (clearSession ⟨some "t", some 0, none⟩)).1 = false ∧
      isSessionValid 9999999 ((isSessionValid 2000000 ⟨some "t", some 0, none⟩).2) =
        (false, (isSessionValid 2000000 ⟨some "t", some 0, none⟩).2) :=
  ⟨(claimC7_clearSession_expiry 3 5 ⟨some "t", some 0, none⟩).1,
    (claimC7_clearSession_expiry 2000000 9999999 ⟨some "t", some 0, none⟩).2
      (by decide)⟩

/-- C9 counterexample: a failed `authenticate` does not touch the
session entries, so with a still-valid session already stored,
`isSessionValid()` is true — not false — right after the failure. -/
theorem claimC9_counterexample :
    (authenticate 0 "a" (hashPassword "b") ⟨some "t", some 0, none⟩).1.success
        = false ∧
      (isSessionValid 0
        (authenticate 0 "a" (hashPassword "b") ⟨some "t", some 0, none⟩).2).1
        = true := by
  decide

/-- C9 (amended — the failed attempt leaves the session entries exactly
as they were, so `isSessionValid()` is false afterwards provided it was
false before; with digests idealised as collision-free, any W ≠ P has
`digest(W) ≠ digest(P)`): for every wrong password W ≠ P,
`authenticate(W, digest(P))` fails, does not create or alter a session,
and leaves `isSessionValid()` false whenever no valid session existed
beforehand. -/
theorem claimC9_wrong_password (now : Nat) (W P : String) (s : GateState)
    (hWP : W ≠ P) :
    (authenticate now W (hashPassword P) s).1.success = false ∧
    ((authenticate now W (hashPassword P) s).2).adminAuth = s.adminAuth ∧
    ((authenticate now W (hashPassword P) s).2).adminAuthTime = s.adminAuthTime ∧
    ((isSessionValid now s).1 = false →
      (isSessionValid now (authenticate now W (hashPassword P) s).2).1 = false) := by
  have hv : verifyPassword W (hashPassword P) = false :=
    verifyPassword_mismatch _ _ (fun he => hWP (hashPassword_inj he))
  by_cases hl : (isLockedOut now s).1 = true
  · obtain ⟨u, hu, hlt⟩ := (isLockedOut_true_iff now s).mp hl
    rw [authenticate_locked hu hlt]
    exact ⟨rfl, rfl, rfl, fun h => h⟩
  · have hl' : (isLockedOut now s).1 = false := by simpa using hl
    rw [authenticate_not_locked now W (hashPassword P) s hl', if_neg (by simp [hv])]
    obtain ⟨ha1, ht1⟩ := isLockedOut_session now s
    obtain ⟨ha2, ht2⟩ := mismatchResult_session now ((isLockedOut now s).2)
    refine ⟨mismatchResult_fails _ _, by rw [ha2, ha1], by rw [ht2, ht1], fun h => ?_⟩
    have hcongr := @isSessionValid_fst_congr now s
      ((mismatchResult now ((isLockedOut now s).2)).2)
      (by rw [ha2, ha1]) (by rw [ht2, ht1])
    rw [hcongr]
    exact h

/-- C9 witness. -/
theorem claimC9_witness :
    "x" ≠ "y" ∧
      (authenticate 4 "x" (hashPassword "y") initialGateState).1.success = false ∧
      ((authenticate 4 "x" (hashPassword "y") initialGateState).2).adminAuth = none ∧
      ((authenticate 4 "x" (hashPassword "y") initialGateState).2).adminAuthTime
          = none ∧
      (isSessionValid 4
        (authenticate 4 "x" (hashPassword "y") initialGateState).2).1 = false :=
  ⟨by decide,
   (claimC9_wrong_password 4 "x" "y" initialGateState (by decide)).1,
   (claimC9_wrong_password 4 "x" "y" initialGateState (by decide)).2.1,
   (claimC9_wrong_password 4 "x" "y" initialGateState (by decide)).2.2.1,
   (claimC9_wrong_password 4 "x" "y" initialGateState (by decide)).2.2.2
     (by decide)⟩

/-- C10 counterexample: `btoa` throws on any code unit above 255, and
the key is ASCII, so XOR preserves the high bits: encrypting the
one-character string `"π"` (code unit 960) throws instead of
round-tripping. -/
theorem claimC10_counterexample : encryptForStorage [960] = none := by decide

/-- C10 (amended — restricted to strings whose UTF-16 code units all
fit in a byte, since `btoa` throws on anything larger): for every such
string, XOR-with-repeating-key composed with base64 encoding
round-trips: decrypting the encrypted form gives back the input,
including the empty string. -/
theorem claimC10_roundtrip (data : List Nat) (h : ∀ b ∈ data, b < 256) :
    ∃ e, encryptForStorage data = some e ∧ decryptFromStorage e = data := by
  by_cases hd : data = []
  · subst hd
    exact ⟨[], rfl, rfl⟩
  · obtain ⟨h1, h2⟩ := storage_roundtrip_aux data h hd
    exact ⟨_, h1, h2⟩

/-- C10 witness. -/
theorem claimC10_witness :
    (∀ b ∈ [76, 0, 255], b < 256) ∧
      ∃ e, encryptForStorage [76, 0, 255] = some e ∧
        decryptFromStorage e = [76, 0, 255] :=
  ⟨by decide, claimC10_roundtrip [76, 0, 255] (by decide)⟩

/-- C2: during an active lockout (`lockoutUntil` stored and in the
future), `authenticate` — with any password, correct or not — returns
failure carrying the remaining lockout seconds
(`ceil((lockoutUntil - now)/1000)`) and leaves the state exactly
unchanged, consuming no attempt; and after exactly five consecutive
failed attempts from a fresh state, `isLockedOut()` is true and a sixth
call with the correct password fails without mutating the counter. -/
theorem claimC2_lockout_rejects_unchanged :
    (∀ (now : Nat) (pw h : String) (s : GateState) (u : Nat),
      (getLoginAttempts s).lockoutUntil = some u → now < u →
      authenticate now pw h s =
        ({ success := false,
           error := some (lockedMessage ((ceilSeconds ((u : Int) - (now : Int))).toNat)),
           lockoutRemaining := some ((ceilSeconds ((u : Int) - (now : Int))).toNat) },
         s)) ∧
    (∀ (t tn : Nat) (pw good : String), pw ≠ good → tn < t + LOCKOUT_DURATION →
      (isLockedOut tn (fiveFails t pw good)).1 = true ∧
      (authenticate tn good (hashPassword good) (fiveFails t pw good)).1.success
          = false ∧
      (authenticate tn good (hashPassword good) (fiveFails t pw good)).2
          = fiveFails t pw good) := by
  constructor
  · intro now pw h s u hu hlt
    exact authenticate_locked hu hlt
  · intro t tn pw good hne hlt
    have hv : verifyPassword pw (hashPassword good) = false :=
      verifyPassword_mismatch _ _ (fun he => hne (hashPassword_inj he))
    have e1 : (authenticate t pw (hashPassword good) initialGateState).2 =
        ⟨none, none, some ⟨1, none⟩⟩ := failed_step_none t _ _ hv none none
    have e2 : (authenticate t pw (hashPassword good)
        (⟨none, none, some ⟨1, none⟩⟩ : GateState)).2 =
        ⟨none, none, some ⟨2, none⟩⟩ := by
      have h2 := failed_step_small t pw (hashPassword good) hv none none 1 (by decide)
      simpa using h2
    have e3 : (authenticate t pw (hashPassword good)
        (⟨none, none, some ⟨2, none⟩⟩ : GateState)).2 =
        ⟨none, none, some ⟨3, none⟩⟩ := by
      have h3 := failed_step_small t pw (hashPassword good) hv none none 2 (by decide)
      simpa using h3
    have e4 : (authenticate t pw (hashPassword good)
        (⟨none, none, some ⟨3, none⟩⟩ : GateState)).2 =
        ⟨none, none, some ⟨4, none⟩⟩ := by
      have h4 := failed_step_small t pw (hashPassword good) hv none none 3 (by decide)
      simpa using h4
    have e5 : (authenticate t pw (hashPassword good)
        (⟨none, none, some ⟨4, none⟩⟩ : GateState)).2 =
        ⟨none, none, some ⟨5, some (t + LOCKOUT_DURATION)⟩⟩ := by
      have h5 := failed_step_lock t pw (hashPassword good) hv none none 4 (by decide)
      simpa using h5
    have hff : fiveFails t pw good =
        ⟨none, none, some ⟨5, some (t + LOCKOUT_DURATION)⟩⟩ := by
      unfold fiveFails
      rw [e1, e2, e3, e4, e5]
    have hu : (getLoginAttempts
        (⟨none, none, some ⟨5, some (t + LOCKOUT_DURATION)⟩⟩ : GateState)).lockoutUntil
        = some (t + LOCKOUT_DURATION) := rfl
    refine ⟨?_, ?_, ?_⟩
    · rw [hff, isLockedOut_locked hu hlt]
    · rw [hff, authenticate_locked hu hlt]
    · rw [hff, authenticate_locked hu hlt]

/-- C2 witness. -/
theorem claimC2_witness :
    ((getLoginAttempts (⟨none, none, some ⟨5, some 1000⟩⟩ : GateState)).lockoutUntil
        = some 1000 ∧ 40 < 1000 ∧
      authenticate 40 "p" "h" ⟨none, none, some ⟨5, some 1000⟩⟩ =
        ({ success := false,
           error := some (lockedMessage ((ceilSeconds ((1000 : Int) - (40 : Int))).toNat)),
           lockoutRemaining := some ((ceilSeconds ((1000 : Int) - (40 : Int))).toNat) },
         ⟨none, none, some ⟨5, some 1000⟩⟩)) ∧
    ("w" ≠ "g" ∧ 50 < 20 + LOCKOUT_DURATION ∧
      (isLockedOut 50 (fiveFails 20 "w" "g")).1 = true ∧
      (authenticate 50 "g" (hashPassword "g") (fiveFails 20 "w" "g")).1.success
          = false ∧
      (authenticate 50 "g" (hashPassword "g") (fiveFails 20 "w" "g")).2
          = fiveFails 20 "w" "g") :=
  ⟨⟨rfl, by decide,
    claimC2_lockout_rejects_unchanged.1 40 "p" "h" ⟨none, none, some ⟨5, some 1000⟩⟩
      1000 rfl (by decide)⟩,
   ⟨by decide, by decide,
    claimC2_lockout_rejects_unchanged.2 20 50 "w" "g" (by decide) (by decide)⟩⟩

/-- C4: the attempt-counter invariant is preserved by every gate
operation (count at most 5, `lockoutUntil` present exactly when the
count has reached 5, stored lockout timestamps positive); the counter
is cleared on every successful authentication and whenever an expired
lockout is seen at read time; and the failed-attempt transition that
brings the count to 5 sets `lockoutUntil = now + 15` minutes, while
transitions below 5 never set it. -/
theorem claimC4_counter_invariant (now : Nat) (pw h : String) (s : GateState) :
    (AttemptInvB s = true → AttemptInvB (authenticate now pw h s).2 = true) ∧
    (AttemptInvB s = true → AttemptInvB (isLockedOut now s).2 = true) ∧
    ((authenticate now pw h s).1.success = true →
        ((authenticate now pw h s).2).loginAttempts = none) ∧
    (∀ u, (getLoginAttempts s).lockoutUntil = some u → 0 < u → u ≤ now →
        ((isLockedOut now s).2).loginAttempts = none) ∧
    ((recordFailedAttempt now s).1.count = MAX_LOGIN_ATTEMPTS →
        (recordFailedAttempt now s).1.lockoutUntil = some (now + LOCKOUT_DURATION)) ∧
    ((recordFailedAttempt now s).1.count < MAX_LOGIN_ATTEMPTS →
        (recordFailedAttempt now s).1.lockoutUntil =
          (getLoginAttempts s).lockoutUntil) := by
  refine ⟨?_, attemptInv_isLockedOut now s, ?_, ?_, ?_, ?_⟩
  · intro hinv
    by_cases hl : (isLockedOut now s).1 = true
    · obtain ⟨u, hu, hlt⟩ := (isLockedOut_true_iff now s).mp hl
      rw [authenticate_locked hu hlt]
      exact hinv
    · have hl' : (isLockedOut now s).1 = false := by simpa using hl
      rw [authenticate_not_locked now pw h s hl']
      split
      · simp [AttemptInvB]
      · obtain ⟨hlu, -, -⟩ := notLocked_state now s hinv hl'
        exact attemptInv_mismatch now _ hlu
          (count_le_four (attemptInv_isLockedOut now s hinv) hlu)
  · intro hsucc
    by_cases hl : (isLockedOut now s).1 = true
    · obtain ⟨u, hu, hlt⟩ := (isLockedOut_true_iff now s).mp hl
      rw [authenticate_locked hu hlt] at hsucc
      simp at hsucc
    · have hl' : (isLockedOut now s).1 = false := by simpa using hl
      rw [authenticate_not_locked now pw h s hl'] at hsucc ⊢
      by_cases hv : verifyPassword pw h = true
      · rw [if_pos hv]
      · rw [if_neg hv] at hsucc
        have hf := mismatchResult_fails now ((isLockedOut now s).2)
        rw [hf] at hsucc
        simp at hsucc
  · intro u hu h0 hn
    rw [isLockedOut_expired hu h0 hn]
    rfl
  · intro hcnt
    unfold recordFailedAttempt at hcnt ⊢
    dsimp only at hcnt ⊢
    by_cases hge : (getLoginAttempts s).count + 1 ≥ MAX_LOGIN_ATTEMPTS
    · rw [if_pos hge]
    · rw [if_neg hge] at hcnt
      simp only [MAX_LOGIN_ATTEMPTS] at hcnt hge
      omega
  · intro hcnt
    unfold recordFailedAttempt at hcnt ⊢
    dsimp only at hcnt ⊢
    by_cases hge : (getLoginAttempts s).count + 1 ≥ MAX_LOGIN_ATTEMPTS
    · rw [if_pos hge] at hcnt
      simp only [MAX_LOGIN_ATTEMPTS] at hcnt hge
      omega
    · rw [if_neg hge]

/-- C4 witness. -/
theorem claimC4_witness :
    AttemptInvB initialGateState = true ∧
      AttemptInvB (authenticate 0 "a" (hashPassword "a") initialGateState).2
        = true ∧
      ((authenticate 0 "a" (hashPassword "a") initialGateState).2).loginAttempts
        = none :=
  ⟨by decide,
   (claimC4_counter_invariant 0 "a" (hashPassword "a") initialGateState).1
     (by decide),
   (claimC4_counter_invariant 0 "a" (hashPassword "a") initialGateState).2.2.1
     (by decide)⟩

/-- C5: outside lockout, a password whose digest differs from the
stored hash increments the (lockout-check-normalised) attempt count by
exactly one; when the new count reaches 5 the call stores
`lockoutUntil = now + 15` minutes and fails with the lockout message
and 900 remaining seconds, and otherwise it fails with a message
stating exactly `5 - count` attempts remaining and sets no lockout. -/
theorem claimC5_mismatch_counts (now : Nat) (pw h : String) (s : GateState)
    (hinv : AttemptInvB s = true) (hnl : (isLockedOut now s).1 = false)
    (hmm : hashPassword pw ≠ h) :
    (getLoginAttempts (authenticate now pw h s).2).count =
      (getLoginAttempts (isLockedOut now s).2).count + 1 ∧
    (authenticate now pw h s).1.success = false ∧
    ((getLoginAttempts (isLockedOut now s).2).count + 1 = MAX_LOGIN_ATTEMPTS →
      (getLoginAttempts (authenticate now pw h s).2).lockoutUntil =
          some (now + LOCKOUT_DURATION) ∧
        (authenticate now pw h s).1.lockoutRemaining = some 900 ∧
        (authenticate now pw h s).1.error = some (tooManyMessage 900)) ∧
    ((getLoginAttempts (isLockedOut now s).2).count + 1 < MAX_LOGIN_ATTEMPTS →
      (getLoginAttempts (authenticate now pw h s).2).lockoutUntil = none ∧
        (authenticate now pw h s).1.lockoutRemaining = none ∧
        (authenticate now pw h s).1.error = some (incorrectMessage
          ((MAX_LOGIN_ATTEMPTS : Int) -
            ((((getLoginAttempts (isLockedOut now s).2).count + 1 : Nat)) : Int)))) := by
  have hv : verifyPassword pw h = false := verifyPassword_mismatch pw h hmm
  obtain ⟨hlu, -, -⟩ := notLocked_state now s hinv hnl
  rw [authenticate_not_locked now pw h s hnl, if_neg (by simp [hv])]
  rw [mismatchResult_no_lockout now _ hlu]
  by_cases h5 : (getLoginAttempts (isLockedOut now s).2).count + 1 ≥ MAX_LOGIN_ATTEMPTS
  · rw [if_pos h5]
    have hinv1 := attemptInv_isLockedOut now s hinv
    have hle := count_le_four hinv1 hlu
    refine ⟨rfl, rfl, fun _ => ⟨rfl, rfl, rfl⟩, fun hlt => ?_⟩
    exact absurd h5 (by omega)
  · rw [if_neg h5]
    refine ⟨rfl, rfl, fun he => absurd he (by simp only [MAX_LOGIN_ATTEMPTS] at h5 ⊢; omega),
      fun _ => ⟨rfl, rfl, rfl⟩⟩

/-- C5 witness. -/
theorem claimC5_witness :
    (AttemptInvB initialGateState = true ∧
      (isLockedOut 0 initialGateState).1 = false ∧
      hashPassword "a" ≠ hashPassword "b") ∧
      ((getLoginAttempts (authenticate 0 "a" (hashPassword "b")
          initialGateState).2).count =
        (getLoginAttempts (isLockedOut 0 initialGateState).2).count + 1 ∧
      (authenticate 0 "a" (hashPassword "b") initialGateState).1.success = false) :=
  ⟨⟨by decide, by decide, by decide⟩,
    ⟨(claimC5_mismatch_counts 0 "a" (hashPassword "b") initialGateState
        (by decide) (by decide) (by decide)).1,
     (claimC5_mismatch_counts 0 "a" (hashPassword "b") initialGateState
        (by decide) (by decide) (by decide)).2.1⟩⟩

/-- C6: `isLockedOut` is true exactly when a `lockoutUntil` is stored
and strictly in the future; when a stored (positive, as the gate only
stores positive timestamps) lockout has passed, the same call clears
the attempt record and returns false; `getLockoutRemaining` is
`ceil((lockoutUntil - now)/1000)` while the lockout is in the future
and 0 when no lockout is stored or it has passed; and at the instant
`now = lockoutUntil` the remaining time is 0 and `isLockedOut` is
false. -/
theorem claimC6_lockout_read (now : Nat) (s : GateState) :
    ((isLockedOut now s).1 = true ↔
      ∃ u, (getLoginAttempts s).lockoutUntil = some u ∧ now < u) ∧
    (∀ u, (getLoginAttempts s).lockoutUntil = some u → 0 < u → u ≤ now →
      isLockedOut now s = (false, clearLoginAttempts s)) ∧
    (∀ u, (getLoginAttempts s).lockoutUntil = some u → now < u →
      getLockoutRemaining now s = (ceilSeconds ((u : Int) - (now : Int))).toNat) ∧
    ((getLoginAttempts s).lockoutUntil = none → getLockoutRemaining now s = 0) ∧
    (∀ u, (getLoginAttempts s).lockoutUntil = some u → u ≤ now →
      getLockoutRemaining now s = 0) ∧
    (∀ u, (getLoginAttempts s).lockoutUntil = some u → 0 < u → u = now →
      getLockoutRemaining now s = 0 ∧ (isLockedOut now s).1 = false) := by
  refine ⟨isLockedOut_true_iff now s,
    fun u hu h0 hn => isLockedOut_expired hu h0 hn,
    fun u hu hlt => getLockoutRemaining_future hu hlt,
    fun hu => getLockoutRemaining_none hu,
    fun u hu hn => getLockoutRemaining_passed hu hn,
    fun u hu h0 he => ⟨getLockoutRemaining_passed hu (le_of_eq he), ?_⟩⟩
  rw [isLockedOut_expired hu h0 (le_of_eq he)]

/-- C6 witness. -/
theorem claimC6_witness :
    ((isLockedOut 500 ⟨none, none, some ⟨5, some 1000⟩⟩).1 = true ↔
      ∃ u, (getLoginAttempts (⟨none, none, some ⟨5, some 1000⟩⟩ : GateState)).lockoutUntil
          = some u ∧ 500 < u) ∧
      getLockoutRemaining 500 ⟨none, none, some ⟨5, some 1000⟩⟩ =
        (ceilSeconds ((1000 : Int) - (500 : Int))).toNat :=
  ⟨(claimC6_lockout_read 500 ⟨none, none, some ⟨5, some 1000⟩⟩).1,
   (claimC6_lockout_read 500 ⟨none, none, some ⟨5, some 1000⟩⟩).2.2.1
     1000 rfl (by decide)⟩

/-- C8 counterexample: a plaintext password of sixty-four hex
characters matches the `/^[a-f0-9]{64}$/i` already-hashed heuristic,
so `saveConfig` persists it verbatim — the durable bucket then holds
the plaintext the user entered, not its digest. -/
theorem claimC8_counterexample :
    saveConfig (fun _ => true) DEFAULT_CONFIG ⟨none, none, some sixtyFourHexA⟩ =
      some ⟨DEFAULT_CONFIG.submitWebhookUrl, DEFAULT_CONFIG.readWebhookUrl,
        sixtyFourHexA⟩ ∧
      sixtyFourHexA ≠ hashPassword sixtyFourHexA := by
  constructor
  · decide
  · intro he
    exact hashPassword_ne_self sixtyFourHexA he.symm

/-- C8 (amended — except when the new plaintext itself matches the
64-hex-character pattern, which `saveConfig` cannot distinguish from an
already-hashed value and stores verbatim): whenever `saveConfig`
persists a config whose patch carries a new, non-empty adminPassword
that differs from the current one and does not look like a hash, the
persisted adminPassword field is the digest of that plaintext and is
never equal to the plaintext itself. -/
theorem claimC8_password_hashed (urlOk : String → Bool) (current : AppConfig)
    (patch : ConfigPatch) (p : String) (out : AppConfig)
    (hp : patch.adminPassword = some p) (hpe : p ≠ "")
    (hne : p ≠ current.adminPassword) (hnh : isAlreadyHashed p = false)
    (hsave : saveConfig urlOk current patch = some out) :
    out.adminPassword = hashPassword p ∧ out.adminPassword ≠ p := by
  have hm : (mergeConfig current patch).adminPassword = p := by
    simp [mergeConfig, hp]
  have hh : (hashIfChanged current (mergeConfig current patch)).adminPassword
      = hashPassword p := by
    unfold hashIfChanged
    rw [hm]
    rw [if_pos ⟨hpe, hne⟩]
    rw [if_neg (by simp [hnh])]
  unfold saveConfig at hsave
  dsimp only at hsave
  unfold configSchemaParse at hsave
  split at hsave
  · have hout := Option.some.inj hsave
    constructor
    · rw [← hout]
      exact hh
    · rw [← hout, hh]
      exact hashPassword_ne_self p
  · simp at hsave

/-- C8 witness. -/
theorem claimC8_witness :
    ((⟨none, none, some "secret12"⟩ : ConfigPatch).adminPassword = some "secret12" ∧
      "secret12" ≠ "" ∧ "secret12" ≠ DEFAULT_CONFIG.adminPassword ∧
      isAlreadyHashed "secret12" = false ∧
      saveConfig (fun _ => true) DEFAULT_CONFIG ⟨none, none, some "secret12"⟩ =
        some ⟨DEFAULT_CONFIG.submitWebhookUrl, DEFAULT_CONFIG.readWebhookUrl,
          hashPassword "secret12"⟩) ∧
    ((⟨DEFAULT_CONFIG.submitWebhookUrl, DEFAULT_CONFIG.readWebhookUrl,
        hashPassword "secret12"⟩ : AppConfig).adminPassword
        = hashPassword "secret12" ∧
      (⟨DEFAULT_CONFIG.submitWebhookUrl, DEFAULT_CONFIG.readWebhookUrl,
        hashPassword "secret12"⟩ : AppConfig).adminPassword ≠ "secret12") :=
  ⟨⟨rfl, by decide, by decide, by decide, by decide⟩,
    claimC8_password_hashed (fun _ => true) DEFAULT_CONFIG
      ⟨none, none, some "secret12"⟩ "secret12"
      ⟨DEFAULT_CONFIG.submitWebhookUrl, DEFAULT_CONFIG.readWebhookUrl,
        hashPassword "secret12"⟩
      rfl (by decide) (by decide) (by decide) (by decide)⟩
